import Mathlib

/-!
# nmsg: the Ruby socket wrapper around the nanomsg engine

A shallow embedding of `ext/nmsg/rubyext.c`.  Every `rb_socket_*` function of the
extension is a Lean function over

* the `Socket` struct (one C `int`, the engine handle),
* an `Engine`: the nanomsg library the wrapper calls into.  It is external to the
  extension, so it is a parameter: a record of reply functions over an arbitrary
  engine state `σ`,
* a `World`: the current engine state together with the log of every engine call
  made so far, in order, with the arguments the wrapper passed.

A wrapper function returns the Ruby value it hands back, the socket struct as it
leaves it, and the world as it leaves it.  "Makes no engine call" is "returns the
world unchanged".

Conventions.
* C `int` values returned by the engine or converted by `NUM2INT` are `Int`; the
  wrapper only compares them, apart from the narrowing of a string length to `int`
  in the two send functions, which is `toCInt`.
* `GET_SOCKET` yields the struct `rb_socket_alloc` wrapped into the object.  `ALLOC`
  raises instead of returning null, so the struct pointer is never null and the `!S`
  disjunct of the guards is not represented.
* `NUM2INT` and `StringValueCStr` raise on a value of the wrong type; arguments are
  taken already converted (`Int`, `String`, a byte list).
-/

namespace Nmsg

/-! ## Data model -/

abbrev Byte := Fin 256

abbrev Bytes := List Byte

/-- A C pointer into engine memory; `0` is the null pointer. -/
abbrev Ptr := Nat

/-- The struct of the source: `typedef struct { int fd; } Socket;`. -/
structure Socket where
  fd : Int
deriving DecidableEq, Repr

/-- Ruby values the extension returns.  `self` is the receiver, `klass` the class
object of the singleton methods, `fixnum n` is `INT2NUM(n)` / `rb_int_new(n)`,
`str b` a new Ruby string holding the bytes `b`, and `raw n` a C `int` returned in
place of a `VALUE` without conversion (as `rb_socket_device` does). -/
inductive VALUE where
  | Qnil
  | Qtrue
  | Qfalse
  | self
  | klass
  | fixnum (n : Int)
  | str (b : Bytes)
  | raw (n : Int)
deriving DecidableEq, Repr

/-- One call into the engine, with the arguments the wrapper passed. -/
inductive Call where
  | nn_socket (domain protocol : Int)
  | nn_bind (fd : Int) (addr : String)
  | nn_connect (fd : Int) (addr : String)
  | nn_poll (fd events : Int) (nfds : Int) (timeout : Int)
  | nn_recv (fd : Int) (len flags : Int)
  | nn_freemsg (msg : Ptr)
  | nn_allocmsg (size : Nat) (type : Int)
  | nn_send (fd : Int) (msg : Ptr) (content : Bytes) (len flags : Int)
  | nn_getsockopt (fd level option : Int)
  | nn_setsockopt (fd level option value : Int)
  | nn_close (fd : Int)
  | nn_shutdown (fd how : Int)
  | nn_device (fd1 fd2 : Int)
  | nn_term
deriving DecidableEq, Repr

/-- Modelled from the spec: `struct nn_pollfd` is declared by the engine header, which
is not among the sources.  The spec passes the poll call a handle and an event mask
that is a small integer of an engine enumeration, so the `events` field holds the
mask unchanged; `revents` is what the engine leaves in the struct on return. -/
structure PollReply where
  res : Int
  revents : Int
deriving DecidableEq, Repr

/-- What `nn_recv(fd, &buffer, NN_MSG, flags)` leaves behind: the return value, the
pointer stored into `buffer`, and the bytes of engine memory at that pointer
(indexed by offset). -/
structure RecvReply where
  nbytes : Int
  buffer : Ptr
  data : Nat → Byte

/-- What `nn_getsockopt` leaves behind: the return value and, when the engine stored
an option value through the pointer, that value. -/
structure GetOptReply where
  res : Int
  optval : Option Int
deriving DecidableEq, Repr

/-- The engine (nanomsg) as the wrapper sees it: four constants of its headers and
one reply function per entry point, each over the engine state `σ`. -/
structure Engine (σ : Type) where
  NN_MSG : Int
  NN_DONTWAIT : Int
  NN_SOL_SOCKET : Int
  NN_RCVFD : Int
  nn_socket : σ → Int → Int → Int × σ
  nn_bind : σ → Int → String → Int × σ
  nn_connect : σ → Int → String → Int × σ
  nn_poll : σ → Int → Int → Int → Int → PollReply × σ
  nn_recv : σ → Int → Int → Int → RecvReply × σ
  nn_freemsg : σ → Ptr → σ
  nn_allocmsg : σ → Nat → Int → Ptr × σ
  nn_send : σ → Int → Ptr → Bytes → Int → Int → Int × σ
  nn_getsockopt : σ → Int → Int → Int → GetOptReply × σ
  nn_setsockopt : σ → Int → Int → Int → Int → Int × σ
  nn_close : σ → Int → σ
  nn_shutdown : σ → Int → Int → σ
  nn_device : σ → Int → Int → Int × σ
  nn_term : σ → σ

/-- The engine state and the log of engine calls made so far (oldest first). -/
structure World (σ : Type) where
  eng : σ
  trace : List Call

/-- Record the call `c` and move the engine to state `s`. -/
def World.log {σ : Type} (w : World σ) (c : Call) (s : σ) : World σ :=
  ⟨s, w.trace ++ [c]⟩

/-- The calls logged in `w2` after the ones already in `w1`. -/
def callsSince {σ : Type} (w1 w2 : World σ) : List Call :=
  w2.trace.drop w1.trace.length

/-- What a wrapper function leaves behind. -/
structure Ret (σ : Type) where
  value : VALUE
  sock : Socket
  world : World σ

/-- An engine teardown call. -/
def Call.isTeardown : Call → Bool
  | Call.nn_close _ => true
  | Call.nn_shutdown _ _ => true
  | _ => false

/-- A release of the message buffer `p`. -/
def Call.isFreeOf (p : Ptr) : Call → Bool
  | Call.nn_freemsg q => decide (q = p)
  | _ => false

/-- A call that names the engine handle `h`. -/
def Call.usesHandle (h : Int) : Call → Bool
  | Call.nn_bind fd _ => decide (fd = h)
  | Call.nn_connect fd _ => decide (fd = h)
  | Call.nn_poll fd _ _ _ => decide (fd = h)
  | Call.nn_recv fd _ _ => decide (fd = h)
  | Call.nn_send fd _ _ _ _ => decide (fd = h)
  | Call.nn_getsockopt fd _ _ => decide (fd = h)
  | Call.nn_setsockopt fd _ _ _ => decide (fd = h)
  | Call.nn_close fd => decide (fd = h)
  | Call.nn_shutdown fd _ => decide (fd = h)
  | Call.nn_device fd1 fd2 => decide (fd1 = h) || decide (fd2 = h)
  | _ => false

/-! ## C conversions -/

/-- Narrowing of a `long` to `int` (`const int msg_bytes = RSTRING_LEN(obj)`):
the value modulo `2^32`, in `[-2^31, 2^31)`. -/
def toCInt (n : Int) : Int :=
  (n + 2147483648) % 4294967296 - 2147483648

/-- Conversion of an `int` to `size_t` at a call whose parameter is `size_t`
(`nn_allocmsg`, `memcpy`), for a 64-bit `size_t`. -/
def size_t (n : Int) : Nat :=
  (n % 18446744073709551616).toNat

/-- The bytes `memcpy(msg, data, n)` puts into the fresh buffer: the first `n` bytes
of the Ruby string.  A count beyond the end of the string reads past it in C; here
the whole string is copied. -/
def memcpy (data : Bytes) (n : Int) : Bytes :=
  data.take (size_t n)

/-- The bytes `rb_tainted_str_new(buffer, len)` copies: `len` bytes starting at the
pointer.  The taint mark is not represented. -/
def rb_tainted_str_new (buffer : Nat → Byte) (len : Int) : VALUE :=
  VALUE.str ((List.range len.toNat).map buffer)

/-! ## The wrapper functions -/

section Wrapper

variable {σ : Type}

/-- Source `rb_socket_alloc`: a fresh struct with `fd = -1`. -/
def rb_socket_alloc : Socket :=
  ⟨-1⟩

/-- Source `rb_socket_free`: the finalizer; best-effort shutdown when `fd > 0`. -/
def rb_socket_free (E : Engine σ) (S : Socket) (w : World σ) : World σ :=
  if 0 < S.fd then w.log (Call.nn_shutdown S.fd 0) (E.nn_shutdown w.eng S.fd 0) else w

/-- Source `rb_socket_initialize`: `S->fd = nn_socket(domain, protocol)`. -/
def rb_socket_initialize (E : Engine σ) (_S : Socket) (domain protocol : Int)
    (w : World σ) : Ret σ :=
  let r := E.nn_socket w.eng domain protocol
  ⟨VALUE.self, ⟨r.1⟩, w.log (Call.nn_socket domain protocol) r.2⟩

/-- Source `rb_socket_bind`. -/
def rb_socket_bind (E : Engine σ) (S : Socket) (addr : String) (w : World σ) : Ret σ :=
  if S.fd = -1 then ⟨VALUE.Qnil, S, w⟩
  else
    let r := E.nn_bind w.eng S.fd addr
    let endpoint_id := r.1
    ⟨if endpoint_id = -1 then VALUE.Qnil else VALUE.fixnum endpoint_id, S,
      w.log (Call.nn_bind S.fd addr) r.2⟩

/-- Source `rb_socket_connect`. -/
def rb_socket_connect (E : Engine σ) (S : Socket) (addr : String) (w : World σ) : Ret σ :=
  if S.fd = -1 then ⟨VALUE.Qnil, S, w⟩
  else
    let r := E.nn_connect w.eng S.fd addr
    let endpoint_id := r.1
    ⟨if endpoint_id = -1 then VALUE.Qnil else VALUE.fixnum endpoint_id, S,
      w.log (Call.nn_connect S.fd addr) r.2⟩

/-- Source `rb_socket_poll`.  `timeout = none` is a `nil` timeout argument. -/
def rb_socket_poll (E : Engine σ) (S : Socket) (mask : Int) (timeout : Option Int)
    (w : World σ) : Ret σ :=
  if S.fd = -1 then ⟨VALUE.Qnil, S, w⟩
  else
    let timeout := match timeout with
      | none => (0 : Int)
      | some t => t
    let r := E.nn_poll w.eng S.fd mask 1 timeout
    let w1 := w.log (Call.nn_poll S.fd mask 1 timeout) r.2
    let res := r.1.res
    if res = -1 then ⟨VALUE.Qnil, S, w1⟩
    else if res = 0 then ⟨VALUE.Qfalse, S, w1⟩
    else ⟨if Int.land r.1.revents mask ≠ 0 then VALUE.Qtrue else VALUE.Qfalse, S, w1⟩

/-- Source `rb_socket_recv_msg`. -/
def rb_socket_recv_msg (E : Engine σ) (S : Socket) (w : World σ) : Ret σ :=
  if S.fd = -1 then ⟨VALUE.Qnil, S, w⟩
  else
    let r := E.nn_recv w.eng S.fd E.NN_MSG E.NN_DONTWAIT
    let w1 := w.log (Call.nn_recv S.fd E.NN_MSG E.NN_DONTWAIT) r.2
    let nbytes := r.1.nbytes
    if nbytes < 0 then ⟨VALUE.Qnil, S, w1⟩
    else
      let rs := rb_tainted_str_new r.1.data nbytes
      let w2 := w1.log (Call.nn_freemsg r.1.buffer) (E.nn_freemsg w1.eng r.1.buffer)
      ⟨rs, S, w2⟩

/-- The common body of `rb_socket_send_msg` and `rb_socket_send_msg_block`, which
differ only in the flags of the `nn_send` call. -/
def send_with_flags (E : Engine σ) (flags : Int) (S : Socket) (obj : Bytes)
    (w : World σ) : Ret σ :=
  if S.fd = -1 then ⟨VALUE.Qnil, S, w⟩
  else
    let msg_bytes : Int := toCInt obj.length
    let a := E.nn_allocmsg w.eng (size_t msg_bytes) 0
    let w1 := w.log (Call.nn_allocmsg (size_t msg_bytes) 0) a.2
    let msg := a.1
    if msg = 0 then ⟨VALUE.Qnil, S, w1⟩
    else
      let content := memcpy obj msg_bytes
      let r := E.nn_send w1.eng S.fd msg content E.NN_MSG flags
      let w2 := w1.log (Call.nn_send S.fd msg content E.NN_MSG flags) r.2
      let nbytes := r.1
      if nbytes < 0 then
        ⟨VALUE.Qnil, S, w2.log (Call.nn_freemsg msg) (E.nn_freemsg w2.eng msg)⟩
      else ⟨if nbytes = msg_bytes then VALUE.Qtrue else VALUE.Qfalse, S, w2⟩

/-- Source `rb_socket_send_msg`: `nn_send(S->fd, &msg, NN_MSG, NN_DONTWAIT)`. -/
def rb_socket_send_msg (E : Engine σ) (S : Socket) (obj : Bytes) (w : World σ) : Ret σ :=
  send_with_flags E E.NN_DONTWAIT S obj w

/-- Source `rb_socket_send_msg_block` with `nogvl_send_msg`:
`nn_send(wrapper->fd, wrapper->msg, NN_MSG, 0)`, run without the interpreter lock.
The lock is not represented; the `int` round trip through `void *` is the identity. -/
def rb_socket_send_msg_block (E : Engine σ) (S : Socket) (obj : Bytes) (w : World σ) :
    Ret σ :=
  send_with_flags E 0 S obj w

/-- Source `rb_socket_get_opt`: `int val = -1;` then the engine may store into it.
The length argument `sz = sizeof(val)` is not represented. -/
def rb_socket_get_opt (E : Engine σ) (S : Socket) (level option : Int) (w : World σ) :
    Ret σ :=
  if S.fd < 0 then ⟨VALUE.Qnil, S, w⟩
  else
    let r := E.nn_getsockopt w.eng S.fd level option
    let val : Int := r.1.optval.getD (-1)
    ⟨if r.1.res = 0 then VALUE.fixnum val else VALUE.Qnil, S,
      w.log (Call.nn_getsockopt S.fd level option) r.2⟩

/-- Source `rb_socket_set_opt`. -/
def rb_socket_set_opt (E : Engine σ) (S : Socket) (level option value : Int)
    (w : World σ) : Ret σ :=
  if S.fd < 0 then ⟨VALUE.Qnil, S, w⟩
  else
    let r := E.nn_setsockopt w.eng S.fd level option value
    ⟨if r.1 = 0 then VALUE.self else VALUE.Qnil, S,
      w.log (Call.nn_setsockopt S.fd level option value) r.2⟩

/-- Source `rb_socket_close`. -/
def rb_socket_close (E : Engine σ) (S : Socket) (w : World σ) : Ret σ :=
  if 0 < S.fd then
    ⟨VALUE.self, ⟨-1⟩, w.log (Call.nn_close S.fd) (E.nn_close w.eng S.fd)⟩
  else ⟨VALUE.self, S, w⟩

/-- Source `rb_socket_shutdown`. -/
def rb_socket_shutdown (E : Engine σ) (S : Socket) (how : Int) (w : World σ) : Ret σ :=
  if 0 < S.fd then
    ⟨VALUE.self, ⟨-1⟩, w.log (Call.nn_shutdown S.fd how) (E.nn_shutdown w.eng S.fd how)⟩
  else ⟨VALUE.self, S, w⟩

/-- Source `rb_socket_get_fd`. -/
def rb_socket_get_fd (S : Socket) (w : World σ) : Ret σ :=
  ⟨VALUE.fixnum S.fd, S, w⟩

/-- Source `rb_socket_get_sysfd`.  `int optval;` is not initialised: `optval0` is
the content the variable happens to have when the engine stores nothing. -/
def rb_socket_get_sysfd (E : Engine σ) (S : Socket) (optval0 : Int) (w : World σ) :
    Ret σ :=
  let r := E.nn_getsockopt w.eng S.fd E.NN_SOL_SOCKET E.NN_RCVFD
  let optval : Int := r.1.optval.getD optval0
  ⟨VALUE.fixnum (if r.1.res = 0 then optval else -1), S,
    w.log (Call.nn_getsockopt S.fd E.NN_SOL_SOCKET E.NN_RCVFD) r.2⟩

/-- Source `rb_socket_term`. -/
def rb_socket_term (E : Engine σ) (w : World σ) : VALUE × World σ :=
  (VALUE.klass, w.log Call.nn_term (E.nn_term w.eng))

/-- Source `rb_socket_device`.  `so2 = none` is a `nil` second argument, for which
the source uses a temporary struct with `fd = -1`.  The `int` of `nn_device` is
returned as it is. -/
def rb_socket_device (E : Engine σ) (so1 : Socket) (so2 : Option Socket) (w : World σ) :
    VALUE × World σ :=
  let S1 := so1
  let tmp : Socket := ⟨-1⟩
  let S2 := match so2 with
    | none => tmp
    | some s => s
  let r := E.nn_device w.eng S1.fd S2.fd
  (VALUE.raw r.1, w.log (Call.nn_device S1.fd S2.fd) r.2)

/-! ## Sequences of method calls on one socket

`Init_nmsg` registers these instance methods on `Nmsg::Socket`. -/

/-- One instance-method call, with its arguments. -/
inductive Op where
  | init (domain protocol : Int)
  | bind (addr : String)
  | connect (addr : String)
  | poll (mask : Int) (timeout : Option Int)
  | recv_msg
  | send_msg (obj : Bytes)
  | send_msg_block (obj : Bytes)
  | get_opt (level option : Int)
  | set_opt (level option value : Int)
  | close
  | shutdown (how : Int)
  | get_fd
  | get_sysfd (optval0 : Int)
deriving DecidableEq, Repr

/-- Whether the call is the `initialize` method. -/
def Op.isInit : Op → Bool
  | Op.init _ _ => true
  | _ => false

/-- Dispatch of one method call to the function `Init_nmsg` registered for it. -/
def Op.apply (E : Engine σ) (op : Op) (S : Socket) (w : World σ) : Ret σ :=
  match op with
  | Op.init d p => rb_socket_initialize E S d p w
  | Op.bind a => rb_socket_bind E S a w
  | Op.connect a => rb_socket_connect E S a w
  | Op.poll m t => rb_socket_poll E S m t w
  | Op.recv_msg => rb_socket_recv_msg E S w
  | Op.send_msg b => rb_socket_send_msg E S b w
  | Op.send_msg_block b => rb_socket_send_msg_block E S b w
  | Op.get_opt l o => rb_socket_get_opt E S l o w
  | Op.set_opt l o v => rb_socket_set_opt E S l o v w
  | Op.close => rb_socket_close E S w
  | Op.shutdown h => rb_socket_shutdown E S h w
  | Op.get_fd => rb_socket_get_fd S w
  | Op.get_sysfd g => rb_socket_get_sysfd E S g w

/-- The socket and world after a sequence of method calls, first call first. -/
def run (E : Engine σ) : List Op → Socket → World σ → Socket × World σ
  | [], S, w => (S, w)
  | op :: ops, S, w => run E ops (op.apply E S w).sock (op.apply E S w).world

end Wrapper

/-! ## A scripted engine

An engine whose replies are fixed in advance, used to evaluate the wrapper on
concrete inputs.  Its state is the engine's last error number. -/

/-- The replies of a scripted engine. -/
structure Script where
  socket : Int
  endpoint : Int
  poll : PollReply
  recvCount : Int
  recvBuffer : Ptr
  recvData : Bytes
  alloc : Ptr
  send : Int
  getopt : GetOptReply
  setopt : Int
  device : Int
  errno : Int

/-- The engine that answers every call as the script says and leaves the script's
error number as its state. -/
def scripted (s : Script) : Engine Int where
  NN_MSG := -1
  NN_DONTWAIT := 1
  NN_SOL_SOCKET := 0
  NN_RCVFD := 11
  nn_socket := fun _ _ _ => (s.socket, s.errno)
  nn_bind := fun _ _ _ => (s.endpoint, s.errno)
  nn_connect := fun _ _ _ => (s.endpoint, s.errno)
  nn_poll := fun _ _ _ _ _ => (s.poll, s.errno)
  nn_recv := fun _ _ _ _ => (⟨s.recvCount, s.recvBuffer, fun i => s.recvData.getD i 0⟩, s.errno)
  nn_freemsg := fun e _ => e
  nn_allocmsg := fun _ _ _ => (s.alloc, s.errno)
  nn_send := fun _ _ _ _ _ _ => (s.send, s.errno)
  nn_getsockopt := fun _ _ _ _ => (s.getopt, s.errno)
  nn_setsockopt := fun _ _ _ _ _ => (s.setopt, s.errno)
  nn_close := fun e _ => e
  nn_shutdown := fun e _ _ => e
  nn_device := fun _ _ _ => (s.device, s.errno)
  nn_term := fun e => e

/-- A script in which every call fails with `-1` (error number 9, a bad handle). -/
def failing : Script :=
  ⟨-1, -1, ⟨-1, 0⟩, -1, 0, [], 0, -1, ⟨-1, none⟩, -1, -1, 9⟩

/-- Error number the engine leaves when a non-blocking call would have to wait. -/
def EAGAIN : Int := 11

/-- Error number the engine leaves when the handle is not an open socket. -/
def EBADF : Int := 9

/-- A script of a working engine: `nn_socket` issues `sock`, allocation yields the
buffer at address 7, `nn_send` returns `sent` and leaves error number `errno`, a
3-byte message is pending at address 9, poll reports one ready descriptor with
`revents = 1`, options read as 42. -/
def working (sock sent errno : Int) : Script :=
  ⟨sock, 1, ⟨1, 1⟩, 3, 9, [97, 98, 99], 7, sent, ⟨0, some 42⟩, 0, -1, errno⟩

/-- A script of an engine that cannot allocate a message buffer. -/
def outOfMemory : Script :=
  ⟨3, 1, ⟨1, 1⟩, 3, 9, [97, 98, 99], 0, -1, ⟨0, some 42⟩, 0, -1, 12⟩

/-- The bytes of the string "ping". -/
def ping : Bytes :=
  [112, 105, 110, 103]

/-- The initial world of the scripted engine: no error, no call made. -/
def world0 : World Int :=
  ⟨0, []⟩

/-- The pointer `nn_allocmsg(msg_bytes, 0)` returns in a send of `obj` from world `w`. -/
def allocReply {σ : Type} (E : Engine σ) (obj : Bytes) (w : World σ) : Ptr :=
  (E.nn_allocmsg w.eng (size_t (toCInt obj.length)) 0).1

/-- The value the `nn_send` call returns in a send of `obj` on `S` from world `w`,
made with the given flags after the allocation. -/
def sendReply {σ : Type} (E : Engine σ) (flags : Int) (S : Socket) (obj : Bytes)
    (w : World σ) : Int :=
  (E.nn_send (E.nn_allocmsg w.eng (size_t (toCInt obj.length)) 0).2 S.fd
    (allocReply E obj w) (memcpy obj (toCInt obj.length)) E.NN_MSG flags).1

/-! ## Basic facts about the guards -/

section Lemmas

variable {σ : Type}

theorem bind_closed (E : Engine σ) (S : Socket) (addr : String) (w : World σ)
    (h : S.fd = -1) : rb_socket_bind E S addr w = ⟨VALUE.Qnil, S, w⟩ := by
  simp [rb_socket_bind, h]

theorem connect_closed (E : Engine σ) (S : Socket) (addr : String) (w : World σ)
    (h : S.fd = -1) : rb_socket_connect E S addr w = ⟨VALUE.Qnil, S, w⟩ := by
  simp [rb_socket_connect, h]

theorem poll_closed (E : Engine σ) (S : Socket) (mask : Int) (timeout : Option Int)
    (w : World σ) (h : S.fd = -1) : rb_socket_poll E S mask timeout w = ⟨VALUE.Qnil, S, w⟩ := by
  simp [rb_socket_poll, h]

theorem recv_closed (E : Engine σ) (S : Socket) (w : World σ)
    (h : S.fd = -1) : rb_socket_recv_msg E S w = ⟨VALUE.Qnil, S, w⟩ := by
  simp [rb_socket_recv_msg, h]

theorem send_flags_closed (E : Engine σ) (flags : Int) (S : Socket) (obj : Bytes)
    (w : World σ) (h : S.fd = -1) : send_with_flags E flags S obj w = ⟨VALUE.Qnil, S, w⟩ := by
  simp [send_with_flags, h]

theorem send_closed (E : Engine σ) (S : Socket) (obj : Bytes) (w : World σ)
    (h : S.fd = -1) : rb_socket_send_msg E S obj w = ⟨VALUE.Qnil, S, w⟩ :=
  send_flags_closed E _ S obj w h

theorem send_block_closed (E : Engine σ) (S : Socket) (obj : Bytes) (w : World σ)
    (h : S.fd = -1) : rb_socket_send_msg_block E S obj w = ⟨VALUE.Qnil, S, w⟩ :=
  send_flags_closed E _ S obj w h

theorem get_opt_closed (E : Engine σ) (S : Socket) (level option : Int) (w : World σ)
    (h : S.fd < 0) : rb_socket_get_opt E S level option w = ⟨VALUE.Qnil, S, w⟩ := by
  simp [rb_socket_get_opt, h]

theorem set_opt_closed (E : Engine σ) (S : Socket) (level option value : Int)
    (w : World σ) (h : S.fd < 0) :
    rb_socket_set_opt E S level option value w = ⟨VALUE.Qnil, S, w⟩ := by
  simp [rb_socket_set_opt, h]

theorem close_not_positive (E : Engine σ) (S : Socket) (w : World σ)
    (h : ¬ 0 < S.fd) : rb_socket_close E S w = ⟨VALUE.self, S, w⟩ := by
  simp [rb_socket_close, h]

theorem shutdown_not_positive (E : Engine σ) (S : Socket) (how : Int) (w : World σ)
    (h : ¬ 0 < S.fd) : rb_socket_shutdown E S how w = ⟨VALUE.self, S, w⟩ := by
  simp [rb_socket_shutdown, h]

theorem close_positive (E : Engine σ) (S : Socket) (w : World σ) (h : 0 < S.fd) :
    rb_socket_close E S w =
      ⟨VALUE.self, ⟨-1⟩, w.log (Call.nn_close S.fd) (E.nn_close w.eng S.fd)⟩ := by
  simp [rb_socket_close, h]

theorem shutdown_positive (E : Engine σ) (S : Socket) (how : Int) (w : World σ)
    (h : 0 < S.fd) :
    rb_socket_shutdown E S how w =
      ⟨VALUE.self, ⟨-1⟩, w.log (Call.nn_shutdown S.fd how) (E.nn_shutdown w.eng S.fd how)⟩ := by
  simp [rb_socket_shutdown, h]

theorem log_eng (w : World σ) (c : Call) (s : σ) : (w.log c s).eng = s :=
  rfl

theorem callsSince_self (w : World σ) : callsSince w w = [] := by
  simp [callsSince]

theorem callsSince_log (w : World σ) (c : Call) (s : σ) :
    callsSince w (w.log c s) = [c] := by
  simp [callsSince, World.log]

theorem callsSince_log_log (w : World σ) (c d : Call) (s t : σ) :
    callsSince w ((w.log c s).log d t) = [c, d] := by
  simp [callsSince, World.log]

theorem callsSince_log_log_log (w : World σ) (c d e : Call) (s t u : σ) :
    callsSince w (((w.log c s).log d t).log e u) = [c, d, e] := by
  simp [callsSince, World.log]

theorem toCInt_length (obj : Bytes) (h : obj.length < 2147483648) :
    toCInt (obj.length : Int) = (obj.length : Int) := by
  unfold toCInt
  omega

theorem apply_keeps_sentinel (E : Engine σ) (op : Op) (S : Socket) (w : World σ)
    (hop : op.isInit = false) (h : S.fd = -1) : (op.apply E S w).sock.fd = -1 := by
  have hneg : S.fd < 0 := by omega
  have hpos : ¬ 0 < S.fd := by omega
  cases op with
  | init d p => simp [Op.isInit] at hop
  | bind a => simp [Op.apply, bind_closed E S a w h, h]
  | connect a => simp [Op.apply, connect_closed E S a w h, h]
  | poll m t => simp [Op.apply, poll_closed E S m t w h, h]
  | recv_msg => simp [Op.apply, recv_closed E S w h, h]
  | send_msg b => simp [Op.apply, send_closed E S b w h, h]
  | send_msg_block b => simp [Op.apply, send_block_closed E S b w h, h]
  | get_opt l o => simp [Op.apply, get_opt_closed E S l o w hneg, h]
  | set_opt l o v => simp [Op.apply, set_opt_closed E S l o v w hneg, h]
  | close => simp [Op.apply, close_not_positive E S w hpos, h]
  | shutdown how => simp [Op.apply, shutdown_not_positive E S how w hpos, h]
  | get_fd => simp [Op.apply, rb_socket_get_fd, h]
  | get_sysfd g => simp [Op.apply, rb_socket_get_sysfd, h]

theorem run_keeps_sentinel (E : Engine σ) (ops : List Op) :
    ∀ (S : Socket) (w : World σ), (∀ op ∈ ops, op.isInit = false) → S.fd = -1 →
      (run E ops S w).1.fd = -1 := by
  induction ops with
  | nil => intro S w _ h; simpa [run] using h
  | cons op ops ih =>
    intro S w hops h
    simp only [run]
    apply ih
    · intro o ho; exact hops o (List.mem_cons_of_mem _ ho)
    · exact apply_keeps_sentinel E op S w (hops op (List.mem_cons_self _ _)) h

theorem send_flags_value (E : Engine σ) (flags : Int) (S : Socket) (obj : Bytes)
    (w : World σ) (hopen : S.fd ≠ -1) :
    (send_with_flags E flags S obj w).value =
      if allocReply E obj w = 0 then VALUE.Qnil
      else if sendReply E flags S obj w < 0 then VALUE.Qnil
      else if sendReply E flags S obj w = toCInt obj.length then VALUE.Qtrue
      else VALUE.Qfalse := by
  simp only [send_with_flags, hopen, if_false, allocReply, sendReply, World.log]
  split_ifs <;> rfl

theorem send_flags_calls (E : Engine σ) (flags : Int) (S : Socket) (obj : Bytes)
    (w : World σ) (hopen : S.fd ≠ -1) :
    callsSince w (send_with_flags E flags S obj w).world =
      if allocReply E obj w = 0 then [Call.nn_allocmsg (size_t (toCInt obj.length)) 0]
      else if sendReply E flags S obj w < 0 then
        [Call.nn_allocmsg (size_t (toCInt obj.length)) 0,
         Call.nn_send S.fd (allocReply E obj w) (memcpy obj (toCInt obj.length)) E.NN_MSG
           flags,
         Call.nn_freemsg (allocReply E obj w)]
      else
        [Call.nn_allocmsg (size_t (toCInt obj.length)) 0,
         Call.nn_send S.fd (allocReply E obj w) (memcpy obj (toCInt obj.length)) E.NN_MSG
           flags] := by
  simp only [send_with_flags, hopen, if_false, allocReply, sendReply, log_eng]
  split_ifs <;> simp [callsSince_log, callsSince_log_log, callsSince_log_log_log]

/-- On a handle greater than 0, `close` and `shutdown` each make exactly one teardown
call on that handle and leave the handle at -1. -/
theorem teardown_on_positive_handle (E : Engine σ) (S : Socket) (how : Int) (w : World σ)
    (h : 0 < S.fd) :
    (rb_socket_close E S w).sock.fd = -1 ∧
    callsSince w (rb_socket_close E S w).world = [Call.nn_close S.fd] ∧
    (rb_socket_shutdown E S how w).sock.fd = -1 ∧
    callsSince w (rb_socket_shutdown E S how w).world = [Call.nn_shutdown S.fd how] := by
  simp [close_positive E S w h, shutdown_positive E S how w h, callsSince_log]

theorem send_narrowed_general (obj : Bytes) (hlen : obj.length = 4294967301) :
    (rb_socket_send_msg (scripted (working 3 5 0)) ⟨3⟩ obj world0).value = VALUE.Qtrue ∧
    callsSince world0 (rb_socket_send_msg (scripted (working 3 5 0)) ⟨3⟩ obj world0).world
      = [Call.nn_allocmsg 5 0, Call.nn_send 3 7 (obj.take 5) (-1) 1] := by
  have hc : toCInt (obj.length : Int) = 5 := by
    rw [hlen]; decide
  have hsz : size_t 5 = 5 := by decide
  have hopen : (⟨3⟩ : Socket).fd ≠ -1 := by decide
  have hv := send_flags_value (scripted (working 3 5 0)) 1 ⟨3⟩ obj world0 hopen
  have hcalls := send_flags_calls (scripted (working 3 5 0)) 1 ⟨3⟩ obj world0 hopen
  simp only [allocReply, sendReply, scripted, working, hc, hsz, memcpy] at hv hcalls
  exact ⟨by simpa using hv, by simpa using hcalls⟩

/-- The string length is narrowed to `int` before it is used: for a string of
`2^32 + 5` bytes the wrapper allocates 5 bytes, copies the first 5 bytes, and returns
true when the engine's send call reports 5 bytes. -/
theorem send_length_is_narrowed :
    (rb_socket_send_msg (scripted (working 3 5 0)) ⟨3⟩
      (List.replicate 4294967301 0) world0).value = VALUE.Qtrue ∧
    callsSince world0 (rb_socket_send_msg (scripted (working 3 5 0)) ⟨3⟩
      (List.replicate 4294967301 0) world0).world
      = [Call.nn_allocmsg 5 0,
         Call.nn_send 3 7 ((List.replicate 4294967301 0).take 5) (-1) 1] :=
  send_narrowed_general (List.replicate 4294967301 0) (List.length_replicate _ _)

/-- Outside the contract of the engine's send call: were it to return 0 for the
4-byte string "ping", the wrapper would return false and its calls would be the
allocation and the send only. -/
theorem send_false_path_has_no_release :
    (rb_socket_send_msg (scripted (working 3 0 0)) ⟨3⟩ ping world0).value = VALUE.Qfalse ∧
    callsSince world0 (rb_socket_send_msg (scripted (working 3 0 0)) ⟨3⟩ ping world0).world
      = [Call.nn_allocmsg 4 0, Call.nn_send 3 7 ping (-1) 1] := by
  decide

end Lemmas

/-! ## Construction with a pair the engine rejects -/

section Claims

variable {σ : Type}

/-- C1: when the engine's open call returns -1 for the (domain, protocol) pair,
`initialize` leaves the handle at -1, `get_fd` reports -1, and each of bind, connect,
send, receive, poll, get_option and set_option called afterwards (in any world)
returns nil, leaves the world unchanged (no engine call) and leaves the handle at -1. -/
theorem C1_rejected_pair_gives_inert_socket (E : Engine σ) (S0 : Socket)
    (domain protocol : Int) (w : World σ)
    (hopen : (E.nn_socket w.eng domain protocol).1 = -1) :
    ( rb_socket_initialize E S0 domain protocol w).sock.fd = -1 ∧
    ∀ w1 : World σ,
      (rb_socket_get_fd ( rb_socket_initialize E S0 domain protocol w).sock w1).value
        = VALUE.fixnum (-1) ∧
      (∀ addr, rb_socket_bind E ( rb_socket_initialize E S0 domain protocol w).sock addr w1
        = ⟨VALUE.Qnil, ⟨-1⟩, w1⟩) ∧
      (∀ addr, rb_socket_connect E ( rb_socket_initialize E S0 domain protocol w).sock addr w1
        = ⟨VALUE.Qnil, ⟨-1⟩, w1⟩) ∧
      (∀ obj, rb_socket_send_msg E ( rb_socket_initialize E S0 domain protocol w).sock obj w1
        = ⟨VALUE.Qnil, ⟨-1⟩, w1⟩) ∧
      (rb_socket_recv_msg E ( rb_socket_initialize E S0 domain protocol w).sock w1
        = ⟨VALUE.Qnil, ⟨-1⟩, w1⟩) ∧
      (∀ mask timeout,
        rb_socket_poll E ( rb_socket_initialize E S0 domain protocol w).sock mask timeout w1
        = ⟨VALUE.Qnil, ⟨-1⟩, w1⟩) ∧
      (∀ level option,
        rb_socket_get_opt E ( rb_socket_initialize E S0 domain protocol w).sock level option w1
        = ⟨VALUE.Qnil, ⟨-1⟩, w1⟩) ∧
      (∀ level option value,
        rb_socket_set_opt E ( rb_socket_initialize E S0 domain protocol w).sock level option
          value w1
        = ⟨VALUE.Qnil, ⟨-1⟩, w1⟩) := by
  have hS : ( rb_socket_initialize E S0 domain protocol w).sock = ⟨-1⟩ := by
    simp [ rb_socket_initialize, hopen]
  rw [hS]
  refine ⟨rfl, fun w1 => ⟨rfl, ?_, ?_, ?_, ?_, ?_, ?_, ?_⟩⟩
  · intro addr; exact bind_closed E _ addr w1 rfl
  · intro addr; exact connect_closed E _ addr w1 rfl
  · intro obj; exact send_closed E _ obj w1 rfl
  · exact recv_closed E _ w1 rfl
  · intro mask timeout; exact poll_closed E _ mask timeout w1 rfl
  · intro level option; exact get_opt_closed E _ level option w1 (by decide)
  · intro level option value; exact set_opt_closed E _ level option value w1 (by decide)

/-- C1 at the scenario of the spec: protocol -999 on an engine that rejects it. -/
theorem C1_rejected_pair_witness :
    ((scripted failing).nn_socket world0.eng 1 (-999)).1 = -1 ∧
    ( rb_socket_initialize (scripted failing) rb_socket_alloc 1 (-999) world0).sock.fd = -1 ∧
    (rb_socket_send_msg (scripted failing)
        ( rb_socket_initialize (scripted failing) rb_socket_alloc 1 (-999) world0).sock
        [112, 105, 110, 103] world0)
      = ⟨VALUE.Qnil, ⟨-1⟩, world0⟩ :=
  ⟨rfl,
   (C1_rejected_pair_gives_inert_socket (scripted failing) rb_socket_alloc 1 (-999) world0
      rfl).1,
   ((C1_rejected_pair_gives_inert_socket (scripted failing) rb_socket_alloc 1 (-999) world0
      rfl).2 world0).2.2.2.1 [112, 105, 110, 103]⟩

/-! ## Teardown -/

/-- C2 (failing input, handle 0): on a socket whose handle is 0, the value the open
call of the engine returned, `close` and `shutdown` return the socket and the world
unchanged: no teardown call is issued and the handle stays 0; a `send` afterwards
still goes to the engine with handle 0. -/
theorem C2_teardown_skips_handle_zero :
    ( rb_socket_initialize (scripted (working 0 4 0)) rb_socket_alloc 1 16 world0).sock
      = ⟨0⟩ ∧
    (∀ (E : Engine σ) (w : World σ), rb_socket_close E ⟨0⟩ w = ⟨VALUE.self, ⟨0⟩, w⟩) ∧
    (∀ (E : Engine σ) (how : Int) (w : World σ),
      rb_socket_shutdown E ⟨0⟩ how w = ⟨VALUE.self, ⟨0⟩, w⟩) ∧
    (rb_socket_send_msg (scripted (working 0 4 0))
        (rb_socket_close (scripted (working 0 4 0)) ⟨0⟩ world0).sock ping world0).value
      = VALUE.Qtrue ∧
    callsSince world0
        (rb_socket_send_msg (scripted (working 0 4 0))
          (rb_socket_close (scripted (working 0 4 0)) ⟨0⟩ world0).sock ping world0).world
      = [Call.nn_allocmsg 4 0, Call.nn_send 0 7 ping (-1) 1] := by
  refine ⟨rfl, ?_, ?_, by decide, by decide⟩
  · intro E w; exact close_not_positive E _ w (by decide)
  · intro E how w; exact shutdown_not_positive E _ how w (by decide)

/-- C6: for every socket state and every `how`, a second `close` (a second
`shutdown`) returns exactly what the first returned — same value, same socket, same
world, so the second call makes no engine call — and the two calls together log at
most one teardown call. -/
theorem C6_second_teardown_is_noop (E : Engine σ) (S : Socket) (how : Int) (w : World σ) :
    (rb_socket_close E (rb_socket_close E S w).sock (rb_socket_close E S w).world
        = rb_socket_close E S w ∧
      callsSince (rb_socket_close E S w).world
        (rb_socket_close E (rb_socket_close E S w).sock (rb_socket_close E S w).world).world
        = [] ∧
      ((callsSince w
        (rb_socket_close E (rb_socket_close E S w).sock (rb_socket_close E S w).world).world
        ).filter Call.isTeardown).length ≤ 1) ∧
    (rb_socket_shutdown E (rb_socket_shutdown E S how w).sock how
          (rb_socket_shutdown E S how w).world
        = rb_socket_shutdown E S how w ∧
      callsSince (rb_socket_shutdown E S how w).world
        (rb_socket_shutdown E (rb_socket_shutdown E S how w).sock how
          (rb_socket_shutdown E S how w).world).world
        = [] ∧
      ((callsSince w
        (rb_socket_shutdown E (rb_socket_shutdown E S how w).sock how
          (rb_socket_shutdown E S how w).world).world
        ).filter Call.isTeardown).length ≤ 1) := by
  by_cases h : 0 < S.fd
  · simp [close_positive E S w h, shutdown_positive E S how w h, close_not_positive,
      shutdown_not_positive, callsSince_self, callsSince_log, Call.isTeardown]
  · simp [close_not_positive E S w h, shutdown_not_positive E S how w h, callsSince_self]

/-! ## Receive -/

/-- C5: on an open socket, when the engine's non-blocking receive returns a count
`n >= 0` and a buffer, `recv_msg` returns the string of the first `n` bytes of that
buffer (its length is `n`, also for `n = 0`) and the calls it makes are the receive
followed by one release of that buffer; when the engine returns a negative count it
returns nil and the only call is the receive (nothing is released).  The handle is
unchanged either way. -/
theorem C5_receive_copies_then_releases (E : Engine σ) (S : Socket) (w : World σ)
    (hopen : S.fd ≠ -1) :
    (0 ≤ (E.nn_recv w.eng S.fd E.NN_MSG E.NN_DONTWAIT).1.nbytes →
      (rb_socket_recv_msg E S w).value
        = VALUE.str ((List.range
            (E.nn_recv w.eng S.fd E.NN_MSG E.NN_DONTWAIT).1.nbytes.toNat).map
            (E.nn_recv w.eng S.fd E.NN_MSG E.NN_DONTWAIT).1.data) ∧
      (((List.range (E.nn_recv w.eng S.fd E.NN_MSG E.NN_DONTWAIT).1.nbytes.toNat).map
            (E.nn_recv w.eng S.fd E.NN_MSG E.NN_DONTWAIT).1.data).length : Int)
        = (E.nn_recv w.eng S.fd E.NN_MSG E.NN_DONTWAIT).1.nbytes ∧
      callsSince w (rb_socket_recv_msg E S w).world
        = [Call.nn_recv S.fd E.NN_MSG E.NN_DONTWAIT,
           Call.nn_freemsg (E.nn_recv w.eng S.fd E.NN_MSG E.NN_DONTWAIT).1.buffer] ∧
      ((callsSince w (rb_socket_recv_msg E S w).world).filter
          (Call.isFreeOf (E.nn_recv w.eng S.fd E.NN_MSG E.NN_DONTWAIT).1.buffer)).length
        = 1) ∧
    ((E.nn_recv w.eng S.fd E.NN_MSG E.NN_DONTWAIT).1.nbytes < 0 →
      (rb_socket_recv_msg E S w).value = VALUE.Qnil ∧
      callsSince w (rb_socket_recv_msg E S w).world
        = [Call.nn_recv S.fd E.NN_MSG E.NN_DONTWAIT]) ∧
    (rb_socket_recv_msg E S w).sock = S := by
  refine ⟨?_, ?_, ?_⟩
  · intro hn
    have hlt : ¬ (E.nn_recv w.eng S.fd E.NN_MSG E.NN_DONTWAIT).1.nbytes < 0 := by omega
    simp [rb_socket_recv_msg, hopen, hlt, rb_tainted_str_new, callsSince_log_log,
      Call.isFreeOf, Int.toNat_of_nonneg hn]
  · intro hn
    simp [rb_socket_recv_msg, hopen, hn, callsSince_log]
  · by_cases hn : (E.nn_recv w.eng S.fd E.NN_MSG E.NN_DONTWAIT).1.nbytes < 0 <;>
      simp [rb_socket_recv_msg, hopen, hn]

/-- C5 on the scripted engine with the 3-byte message "abc" pending at address 9. -/
theorem C5_receive_witness :
    (rb_socket_recv_msg (scripted (working 3 4 0)) ⟨3⟩ world0).value
      = VALUE.str [97, 98, 99] ∧
    callsSince world0 (rb_socket_recv_msg (scripted (working 3 4 0)) ⟨3⟩ world0).world
      = [Call.nn_recv 3 (-1) 1, Call.nn_freemsg 9] :=
  ⟨((C5_receive_copies_then_releases (scripted (working 3 4 0)) ⟨3⟩ world0
      (by decide)).1 (by decide)).1,
   ((C5_receive_copies_then_releases (scripted (working 3 4 0)) ⟨3⟩ world0
      (by decide)).1 (by decide)).2.2.1⟩

/-! ## Poll -/

/-- C9: on an open socket, `poll` makes exactly one engine call, `nn_poll` on one
descriptor holding the socket's handle and the mask `m`, with the timeout `t` (or 0
when the timeout argument is nil); it returns nil when the engine returns -1, false
when the engine returns 0, and otherwise true exactly when the returned events and
`m` have a common bit (false when they have none). -/
theorem C9_poll_passes_one_descriptor (E : Engine σ) (S : Socket) (m : Int)
    (timeout : Option Int) (w : World σ) (hopen : S.fd ≠ -1) :
    callsSince w (rb_socket_poll E S m timeout w).world
      = [Call.nn_poll S.fd m 1 (timeout.getD 0)] ∧
    ((E.nn_poll w.eng S.fd m 1 (timeout.getD 0)).1.res = -1 →
      (rb_socket_poll E S m timeout w).value = VALUE.Qnil) ∧
    ((E.nn_poll w.eng S.fd m 1 (timeout.getD 0)).1.res = 0 →
      (rb_socket_poll E S m timeout w).value = VALUE.Qfalse) ∧
    ((E.nn_poll w.eng S.fd m 1 (timeout.getD 0)).1.res ≠ -1 →
      (E.nn_poll w.eng S.fd m 1 (timeout.getD 0)).1.res ≠ 0 →
      ((rb_socket_poll E S m timeout w).value = VALUE.Qtrue ↔
        Int.land (E.nn_poll w.eng S.fd m 1 (timeout.getD 0)).1.revents m ≠ 0) ∧
      ((rb_socket_poll E S m timeout w).value = VALUE.Qfalse ↔
        Int.land (E.nn_poll w.eng S.fd m 1 (timeout.getD 0)).1.revents m = 0)) ∧
    (rb_socket_poll E S m timeout w).sock = S := by
  have ht : (match timeout with
      | none => (0 : Int)
      | some t => t) = timeout.getD 0 := by
    cases timeout <;> rfl
  refine ⟨?_, ?_, ?_, ?_, ?_⟩
  · simp only [rb_socket_poll, hopen, if_false, ht]
    split_ifs <;> simp [callsSince_log]
  · intro h
    simp [rb_socket_poll, hopen, ht, h]
  · intro h
    simp [rb_socket_poll, hopen, ht, h]
  · intro h1 h0
    by_cases hl : Int.land (E.nn_poll w.eng S.fd m 1 (timeout.getD 0)).1.revents m = 0 <;>
      simp [rb_socket_poll, hopen, ht, h1, h0, hl]
  · simp only [rb_socket_poll, hopen, if_false, ht]
    split_ifs <;> rfl

/-- C9 on the scripted engine: one ready descriptor with `revents = 1`, mask 1, no
timeout argument. -/
theorem C9_poll_witness :
    callsSince world0 (rb_socket_poll (scripted (working 3 4 0)) ⟨3⟩ 1 none world0).world
      = [Call.nn_poll 3 1 1 0] ∧
    (rb_socket_poll (scripted (working 3 4 0)) ⟨3⟩ 1 none world0).value = VALUE.Qtrue :=
  ⟨(C9_poll_passes_one_descriptor (scripted (working 3 4 0)) ⟨3⟩ 1 none world0
      (by decide)).1,
   ((C9_poll_passes_one_descriptor (scripted (working 3 4 0)) ⟨3⟩ 1 none world0
      (by decide)).2.2.2.1 (by decide) (by decide)).1.2 (by decide)⟩

/-! ## Options -/

/-- C10: for every socket, level, option and value.  `get_option` returns an integer
exactly when the handle is open (`0 <= fd`) and the engine's get call returns 0, and
the integer is the one the engine stored; otherwise it returns nil.  `set_option`
returns the socket itself exactly when the handle is open and the engine's set call
returns 0, and nil otherwise.  On a closed socket (`fd = -1`) both return the world
unchanged (no engine call), and neither ever changes the handle. -/
theorem C10_option_access (E : Engine σ) (S : Socket) (level option value : Int)
    (w : World σ) :
    ((rb_socket_get_opt E S level option w).value ≠ VALUE.Qnil ↔
      (0 ≤ S.fd ∧ (E.nn_getsockopt w.eng S.fd level option).1.res = 0)) ∧
    (∀ v : Int, (E.nn_getsockopt w.eng S.fd level option).1.optval = some v →
      ((rb_socket_get_opt E S level option w).value = VALUE.fixnum v ↔
        (0 ≤ S.fd ∧ (E.nn_getsockopt w.eng S.fd level option).1.res = 0))) ∧
    ((rb_socket_get_opt E S level option w).value
      = if 0 ≤ S.fd ∧ (E.nn_getsockopt w.eng S.fd level option).1.res = 0
        then VALUE.fixnum ((E.nn_getsockopt w.eng S.fd level option).1.optval.getD (-1))
        else VALUE.Qnil) ∧
    ((rb_socket_set_opt E S level option value w).value = VALUE.self ↔
      (0 ≤ S.fd ∧ (E.nn_setsockopt w.eng S.fd level option value).1 = 0)) ∧
    ((rb_socket_set_opt E S level option value w).value = VALUE.Qnil ↔
      ¬ (0 ≤ S.fd ∧ (E.nn_setsockopt w.eng S.fd level option value).1 = 0)) ∧
    (S.fd = -1 →
      (rb_socket_get_opt E S level option w).world = w ∧
      (rb_socket_set_opt E S level option value w).world = w) ∧
    (0 ≤ S.fd →
      callsSince w (rb_socket_get_opt E S level option w).world
        = [Call.nn_getsockopt S.fd level option] ∧
      callsSince w (rb_socket_set_opt E S level option value w).world
        = [Call.nn_setsockopt S.fd level option value]) ∧
    (rb_socket_get_opt E S level option w).sock = S ∧
    (rb_socket_set_opt E S level option value w).sock = S := by
  by_cases hfd : S.fd < 0
  · have hno : ¬ 0 ≤ S.fd := by omega
    simp [get_opt_closed E S level option w hfd, set_opt_closed E S level option value w hfd,
      hno]
  · have hge : 0 ≤ S.fd := by omega
    have hne : S.fd ≠ -1 := by omega
    by_cases hg : (E.nn_getsockopt w.eng S.fd level option).1.res = 0 <;>
    by_cases hs : (E.nn_setsockopt w.eng S.fd level option value).1 = 0 <;>
      simp [rb_socket_get_opt, rb_socket_set_opt, hfd, hge, hne, hg, hs, callsSince_log] <;>
      intro v hv <;> simp [hv]

/-! ## Operations without a guard -/

/-- C7 (failing input, handle -1): on a socket whose handle is -1, `get_sysfd` calls
`nn_getsockopt(-1, NN_SOL_SOCKET, NN_RCVFD, ...)` and `device` with that socket as
first argument calls `nn_device(-1, fd2)`: each makes exactly one engine call, and
that call names the invalid handle -1. -/
theorem C7_sysfd_and_device_call_engine_with_sentinel (E : Engine σ) (optval0 : Int)
    (so2 : Option Socket) (w : World σ) :
    callsSince w (rb_socket_get_sysfd E ⟨-1⟩ optval0 w).world
      = [Call.nn_getsockopt (-1) E.NN_SOL_SOCKET E.NN_RCVFD] ∧
    callsSince w (rb_socket_device E ⟨-1⟩ so2 w).2
      = [Call.nn_device (-1) ((so2.getD ⟨-1⟩).fd)] ∧
    ((callsSince w (rb_socket_get_sysfd E ⟨-1⟩ optval0 w).world).filter
      (Call.usesHandle (-1))).length = 1 ∧
    ((callsSince w (rb_socket_device E ⟨-1⟩ so2 w).2).filter
      (Call.usesHandle (-1))).length = 1 ∧
    ((E.nn_getsockopt w.eng (-1) E.NN_SOL_SOCKET E.NN_RCVFD).1.res ≠ 0 →
      (rb_socket_get_sysfd E ⟨-1⟩ optval0 w).value = VALUE.fixnum (-1)) ∧
    (rb_socket_device E ⟨-1⟩ so2 w).1
      = VALUE.raw (E.nn_device w.eng (-1) ((so2.getD ⟨-1⟩).fd)).1 := by
  cases so2 <;>
    simp [rb_socket_get_sysfd, rb_socket_device, callsSince_log, Call.usesHandle] <;>
    intro h1 h2 <;> exact absurd h2 h1

/-! ## The handle over a sequence of calls -/

/-- C8 (as stated, fails): on a socket with handle 3, `close` brings the handle to -1
and a following `initialize`, for which the engine's open call returns 4, brings it
to 4: the handle has become a valid engine handle again. -/
theorem C8_initialize_reopens_closed_socket :
    (run (scripted (working 4 4 0)) [Op.close] ⟨3⟩ world0).1.fd = -1 ∧
    (run (scripted (working 4 4 0)) [Op.close, Op.init 1 16] ⟨3⟩ world0).1.fd = 4 := by
  decide

/-- C8 (amended): in every sequence of calls of bind, connect, poll, send, blocking
send, receive, get_option, set_option, close, shutdown, get_fd and get_sysfd (every
registered instance method except `initialize`), started on a socket whose handle is
-1, the handle is -1 after every call of the sequence; and `initialize`, on any
socket (one whose handle is -1 included) and in any world, leaves as handle exactly
what the engine's open call returns. -/
theorem C8_sentinel_kept_by_other_methods (E : Engine σ) (ops : List Op)
    (S : Socket) (w : World σ) (hops : ∀ op ∈ ops, op.isInit = false)
    (hclosed : S.fd = -1) :
    (∀ k : Nat, (run E (ops.take k) S w).1.fd = -1) ∧
    (∀ (S1 : Socket) (d p : Int) (w1 : World σ),
      ( rb_socket_initialize E S1 d p w1).sock.fd = (E.nn_socket w1.eng d p).1 ∧
      (run E [Op.init d p] S1 w1).1.fd = (E.nn_socket w1.eng d p).1) := by
  refine ⟨?_, ?_⟩
  · intro k
    apply run_keeps_sentinel E (ops.take k) S w _ hclosed
    intro op hop
    exact hops op (List.mem_of_mem_take hop)
  · intro S1 d p w1
    exact ⟨rfl, rfl⟩

/-- C8 (amended) on a closed socket and the sequence send, get_sysfd, close, bind;
and `initialize` on the closed socket with an engine whose open call returns 4. -/
theorem C8_sentinel_is_kept_witness :
    (run (scripted (working 4 4 0))
      ([Op.send_msg ping, Op.get_sysfd 0, Op.close, Op.bind "inproc://a"].take 4)
      ⟨-1⟩ world0).1.fd = -1 ∧
    ( rb_socket_initialize (scripted (working 4 4 0)) ⟨-1⟩ 1 16 world0).sock.fd = 4 :=
  ⟨(C8_sentinel_kept_by_other_methods (scripted (working 4 4 0))
      [Op.send_msg ping, Op.get_sysfd 0, Op.close, Op.bind "inproc://a"] ⟨-1⟩ world0
      (by decide) rfl).1 4,
   ((C8_sentinel_kept_by_other_methods (scripted (working 4 4 0))
      [Op.send_msg ping, Op.get_sysfd 0, Op.close, Op.bind "inproc://a"] ⟨-1⟩ world0
      (by decide) rfl).2 ⟨-1⟩ 1 16 world0).1⟩

/-! ## Send -/

/-- C4 (as stated, fails): the wrapper sees only the return value of the engine's
send call.  A would-block reported as -1 with error number `EAGAIN` gives nil, the
same result as a transmission failure (-1 with `EBADF`) and as an allocation failure,
and not the not-sent result false.  Nor is there any return value that stands for
would-block and always gives false: a return value of 0 gives true (Sent) for the
empty string, and every `int` value fails to give false for some byte string. -/
theorem C4_would_block_is_not_distinguished :
    (rb_socket_send_msg (scripted (working 3 (-1) EAGAIN)) ⟨3⟩ ping world0).value
      = VALUE.Qnil ∧
    (rb_socket_send_msg (scripted (working 3 (-1) EBADF)) ⟨3⟩ ping world0).value
      = VALUE.Qnil ∧
    (rb_socket_send_msg (scripted outOfMemory) ⟨3⟩ ping world0).value = VALUE.Qnil ∧
    (rb_socket_send_msg (scripted (working 3 0 EAGAIN)) ⟨3⟩ [] world0).value
      = VALUE.Qtrue ∧
    ¬ ∃ r : Int, r < 2147483648 ∧ ∀ obj : Bytes,
      (rb_socket_send_msg (scripted (working 3 r EAGAIN)) ⟨3⟩ obj world0).value
        = VALUE.Qfalse := by
  refine ⟨by decide, by decide, by decide, by decide, ?_⟩
  rintro ⟨r, hbig, hr⟩
  have hv : ∀ obj : Bytes,
      (rb_socket_send_msg (scripted (working 3 r EAGAIN)) ⟨3⟩ obj world0).value =
        if r < 0 then VALUE.Qnil
        else if r = toCInt obj.length then VALUE.Qtrue else VALUE.Qfalse := by
    intro obj
    have h := send_flags_value (scripted (working 3 r EAGAIN)) 1 ⟨3⟩ obj world0 (by decide)
    have ha : allocReply (scripted (working 3 r EAGAIN)) obj world0 = 7 := rfl
    have hs : sendReply (scripted (working 3 r EAGAIN)) 1 ⟨3⟩ obj world0 = r := rfl
    rw [ha, hs] at h
    simpa using h
  by_cases hneg : r < 0
  · have h := hr []
    rw [hv] at h
    simp [hneg] at h
  · have h := hr (List.replicate r.toNat 0)
    have hlen : ((List.replicate r.toNat (0 : Byte)).length : Int) = r := by
      simp [Int.toNat_of_nonneg (by omega : 0 ≤ r)]
    have hc : toCInt r = r := by unfold toCInt; omega
    rw [hv, hlen, hc] at h
    simp [hneg] at h

/-- C4 (amended): on an open socket and for a byte string of length `n < 2^31`,
`send_msg` returns true exactly when the buffer was allocated and the engine's send
call returns `n`; false exactly when the buffer was allocated and the engine's send
call returns a non-negative count other than `n`; nil exactly when the allocation
fails or the engine's send call returns a negative count (whatever the engine's error
number, would-block included); and no other result. -/
theorem C4_send_result_by_engine_count (E : Engine σ) (S : Socket) (obj : Bytes)
    (w : World σ) (hopen : S.fd ≠ -1) (hlen : obj.length < 2147483648) :
    ((rb_socket_send_msg E S obj w).value = VALUE.Qtrue ↔
      (allocReply E obj w ≠ 0 ∧ sendReply E E.NN_DONTWAIT S obj w = (obj.length : Int))) ∧
    ((rb_socket_send_msg E S obj w).value = VALUE.Qfalse ↔
      (allocReply E obj w ≠ 0 ∧ 0 ≤ sendReply E E.NN_DONTWAIT S obj w ∧
        sendReply E E.NN_DONTWAIT S obj w ≠ (obj.length : Int))) ∧
    ((rb_socket_send_msg E S obj w).value = VALUE.Qnil ↔
      (allocReply E obj w = 0 ∨ sendReply E E.NN_DONTWAIT S obj w < 0)) ∧
    ((rb_socket_send_msg E S obj w).value = VALUE.Qtrue ∨
      (rb_socket_send_msg E S obj w).value = VALUE.Qfalse ∨
      (rb_socket_send_msg E S obj w).value = VALUE.Qnil) := by
  have hc := toCInt_length obj hlen
  have hn : ¬ ((obj.length : Int) < 0) := by omega
  simp only [rb_socket_send_msg, send_flags_value E _ S obj w hopen, hc]
  by_cases ha : allocReply E obj w = 0
  · simp [ha]
  · by_cases hneg : sendReply E E.NN_DONTWAIT S obj w < 0
    · simp [ha, hneg]
      omega
    · by_cases heq : sendReply E E.NN_DONTWAIT S obj w = (obj.length : Int)
      · simp [ha, hneg, heq, hn]
      · simp [ha, hneg, heq]
        omega

/-- C4 (amended) on the scripted engine whose send call returns 4 for "ping". -/
theorem C4_send_result_witness :
    (rb_socket_send_msg (scripted (working 3 4 0)) ⟨3⟩ ping world0).value = VALUE.Qtrue :=
  (C4_send_result_by_engine_count (scripted (working 3 4 0)) ⟨3⟩ ping world0
    (by decide) (by decide)).1.2 ⟨by decide, by decide⟩

end Claims

end Nmsg
